import Mathlib

/-!
Shallow embedding of the Microsoft To-Do tree data provider
(`MicrosoftToDoTreeDataProvider`) and of the details-panel webview script
(`webviews/taskDetailsView/main.js`).

Entities mirror the `@microsoft/microsoft-graph-types` fields the source
reads; every optional field of the TypeScript types is an `Option`.  The
authenticated Graph client capability is a record of functions
(`getAll` split by the entity type a path returns, plus `patch`
returning a success flag), and every operation that talks to the gateway
also returns the list of gateway requests it issued, so that "issues no
gateway call" and "issues exactly this request" are provable statements.
Date formatting (`toLocaleDateString`, `toLocaleString`) is kept as an
explicit function parameter, never interpreted.
-/

namespace MSToDo

/-- Task list entity (`TodoTaskList`): the source reads `id` and
`displayName`. `displayName` is optional in the Graph types. -/
structure TodoTaskList where
  id : String
  displayName : Option String
deriving Repr, DecidableEq

/-- Graph `DateTimeTimeZone`: the source only ever reads `.dateTime`. -/
structure DateTimeTimeZone where
  dateTime : Option String
deriving Repr, DecidableEq

/-- Graph `ItemBody`: the source only ever reads `.content`. -/
structure ItemBody where
  content : Option String
deriving Repr, DecidableEq

/-- Task entity (`TodoTask`): the fields the provider and the webview read.
`status` and `importance` are the raw Graph string enums, kept as strings
exactly as the source compares them. -/
structure TodoTask where
  id : String
  title : Option String
  status : Option String
  importance : Option String
  dueDateTime : Option DateTimeTimeZone
  body : Option ItemBody
  reminderDateTime : Option DateTimeTimeZone
deriving Repr, DecidableEq

/-- `TaskStatusType` enum of the source; the string values are
`'Completed'` and `'In Progress'`. -/
inductive TaskStatusType where
  | completed
  | inProgress
deriving Repr, DecidableEq

/-- String value of the `TaskStatusType` enum member. -/
def TaskStatusType.str : TaskStatusType → String
  | .completed => "Completed"
  | .inProgress => "In Progress"

/-- `ListNode` of the source: `nodeType: 'list'` with its entity. -/
structure ListNode where
  entity : TodoTaskList
deriving Repr, DecidableEq

/-- `TaskNode` of the source: `nodeType: 'task'`, the task entity and the
back-reference to the owning list node. -/
structure TaskNode where
  entity : TodoTask
  parent : ListNode
deriving Repr, DecidableEq

/-- `StatusNode` of the source holds a deferred `getChildren` closure; the
closure produced in `getChildren` on a list element captures exactly the
list element and the `getCompleted` flag, so the embedding stores that
captured data and realizes the fetch in `getChildren` below. -/
structure StatusNode where
  statusType : TaskStatusType
  parent : ListNode
  getCompleted : Bool
deriving Repr, DecidableEq

/-- The `ToDoEntity` tagged union of the source. -/
inductive ToDoEntity where
  | task (n : TaskNode)
  | status (n : StatusNode)
  | list (n : ListNode)
  | createList
deriving Repr, DecidableEq

/-- A patch body sent to the gateway: the provider only ever patches a
single `status` or `importance` field (field edits are out of the
embedded slice). -/
inductive PatchBody where
  | status (v : String)
  | importance (v : String)
deriving Repr, DecidableEq

/-- A request issued against the authenticated Graph client. -/
inductive GatewayRequest where
  | getAll (path : String)
  | patch (path : String) (body : PatchBody)
deriving Repr, DecidableEq

/-- The authenticated client capability obtained from
`clientFactory.getClient()`. `getAll` of the source is split by the
entity type the path returns; `patch` answers whether the request
succeeded. -/
structure GraphClient where
  getAllLists : String → List TodoTaskList
  getAllTasks : String → List TodoTask
  patch : String → PatchBody → Bool

/-- The fixed path of the root lists query. -/
def listsPath : String := "/me/todo/lists"

/-- Path of the filtered tasks query built in `getTasks`
(line 167 of the source): template
`/me/todo/lists/LISTID/tasks?$filter= status COMPARISON \x27completed\x27`
with comparison `eq` when fetching completed and `ne` otherwise. -/
def tasksQueryPath (listId : String) (getCompleted : Bool) : String :=
  "/me/todo/lists/" ++ listId ++ "/tasks?$filter= status "
    ++ (if getCompleted then "eq" else "ne") ++ " \x27completed\x27"

/-- The `getTasks` local function of `getChildren` on a list element:
fetches the filtered tasks of the owning list and wraps each as a
`TaskNode` whose `parent` is the list element. Also reports the gateway
request issued. -/
def getTasks (client : GraphClient) (element : ListNode) (getCompleted : Bool) :
    List TaskNode × List GatewayRequest :=
  let path := tasksQueryPath element.entity.id getCompleted
  let tasks := client.getAllTasks path
  (tasks.map (fun entity => { entity := entity, parent := element }), [GatewayRequest.getAll path])

/-- `getChildren` of the provider. The first component is the returned
value (`none` models the `undefined` return), the second the gateway
requests issued during the call. Branches in source order: a missing
client returns `undefined`; no element fetches all lists and appends the
create-list sentinel; a list element builds the two status groups
without touching the gateway; a status element realizes its deferred
fetch; other elements fall through to `undefined`. -/
def getChildren (client : Option GraphClient) (element : Option ToDoEntity) :
    Option (List ToDoEntity) × List GatewayRequest :=
  match client with
  | none => (none, [])
  | some client =>
    match element with
    | none =>
        let taskLists := client.getAllLists listsPath
        let nodes := taskLists.map (fun entity => ToDoEntity.list { entity := entity })
        (some (nodes ++ [ToDoEntity.createList]), [GatewayRequest.getAll listsPath])
    | some (ToDoEntity.list ln) =>
        (some [ToDoEntity.status { statusType := TaskStatusType.inProgress, parent := ln, getCompleted := false },
               ToDoEntity.status { statusType := TaskStatusType.completed, parent := ln, getCompleted := true }],
         [])
    | some (ToDoEntity.status sn) =>
        let r := getTasks client sn.parent sn.getCompleted
        (some (r.1.map ToDoEntity.task), r.2)
    | some (ToDoEntity.task _) => (none, [])
    | some ToDoEntity.createList => (none, [])

/-- An observable effect of a mutation: a gateway request, or a firing of
the `didChangeTreeData` event emitter with the given element (`none`
would be the global firing with no element; the coordinator always fires
with a specific node). -/
inductive TreeEvent where
  | req (r : GatewayRequest)
  | fire (target : Option ToDoEntity)
deriving Repr, DecidableEq

/-- Patch path addressing a task, line 67 and line 81 of the source:
`/me/todo/lists/PARENTID/tasks/TASKID`. -/
def taskPatchPath (n : TaskNode) : String :=
  "/me/todo/lists/" ++ n.parent.entity.id ++ "/tasks/" ++ n.entity.id

/-- The status value patched by `changeCompletedState`, line 68:
`n.entity.status === 'completed' ? 'notStarted' : 'completed'`. -/
def toggledStatus (s : Option String) : String :=
  if s = some "completed" then "notStarted" else "completed"

/-- The importance value patched by `changeImportanceState`, line 82:
`n.entity.importance === 'high' ? 'normal' : 'high'`. -/
def toggledImportance (s : Option String) : String :=
  if s = some "high" then "normal" else "high"

/-- The per-node async closure of `changeCompletedState`: patch the
task's status at the pair-addressed path, and on success fire the change
event at the task's parent list node. On failure of the awaited patch
the closure's remaining code does not run. -/
def completedPatchOne (client : GraphClient) (n : TaskNode) : List TreeEvent :=
  let path := taskPatchPath n
  let body := PatchBody.status (toggledStatus n.entity.status)
  if client.patch path body then
    [TreeEvent.req (GatewayRequest.patch path body),
     TreeEvent.fire (some (ToDoEntity.list n.parent))]
  else
    [TreeEvent.req (GatewayRequest.patch path body)]

/-- The per-node async closure of `changeImportanceState`, analogous. -/
def importancePatchOne (client : GraphClient) (n : TaskNode) : List TreeEvent :=
  let path := taskPatchPath n
  let body := PatchBody.importance (toggledImportance n.entity.importance)
  if client.patch path body then
    [TreeEvent.req (GatewayRequest.patch path body),
     TreeEvent.fire (some (ToDoEntity.list n.parent))]
  else
    [TreeEvent.req (GatewayRequest.patch path body)]

/-- `changeCompletedState`: `nodes.map(async n => ...)` launches one
independent promise per node before any is awaited; the result is the
per-node event trace of each promise, in batch order. `Promise.all` only
joins them and does not couple their executions. -/
def changeCompletedState (client : GraphClient) (nodes : List TaskNode) :
    List (List TreeEvent) :=
  nodes.map (completedPatchOne client)

/-- `changeImportanceState`, analogous. -/
def changeImportanceState (client : GraphClient) (nodes : List TaskNode) :
    List (List TreeEvent) :=
  nodes.map (importancePatchOne client)

/-- The model of a `vscode.TreeItemLabel`: the label text and the
highlighted spans (start and end offsets). -/
structure TreeItemLabelModel where
  label : String
  highlights : List (Nat × Nat)
deriving Repr, DecidableEq

/-- JavaScript truthiness of an optional string: `undefined` and the
empty string are falsy. -/
def optStrTruthy (o : Option String) : Bool :=
  !(o.getD "" == "")

/-- The label-and-highlights computation of the `'task'` branch of
`getTreeItem` (lines 106-125). `fmt` stands for
`s => new Date(s).toLocaleDateString()`, uninterpreted. When
`dueDateTime?.dateTime` is truthy the label gains two spaces and then
the ` DUE ... ` suffix, whose span is pushed onto `highlights`. -/
def taskTreeLabel (fmt : String → String) (t : TodoTask) : TreeItemLabelModel :=
  let label := t.title.getD ""
  match t.dueDateTime.bind DateTimeTimeZone.dateTime with
  | some dt =>
      if dt = "" then { label := label, highlights := [] }
      else
        let dueStr := " DUE " ++ fmt dt ++ " "
        let label1 := label ++ "  "
        { label := label1 ++ dueStr,
          highlights := [(label1.length, label1.length + dueStr.length)] }
  | none => { label := label, highlights := [] }

/-- The tooltip of the `'task'` branch: the title between asterisks,
then two newlines and the body content when `body?.content` is truthy
(lines 107, 118-120). -/
def taskTooltip (t : TodoTask) : String :=
  let tooltip := "*" ++ t.title.getD "" ++ "*"
  match t.body.bind ItemBody.content with
  | some c => if c = "" then tooltip else tooltip ++ "\n\n" ++ c
  | none => tooltip

/-- The `contextValue` of the `'task'` branch (lines 128-130): a
composite tag of the completion state and the importance state. -/
def taskContextValue (t : TodoTask) : String :=
  let status := if t.status = some "completed" then "completed" else "notcompleted"
  let importance := if t.importance = some "high" then "starred" else "notstarred"
  "task-" ++ status ++ " task-" ++ importance

/-- Coercion applied when a JavaScript value is assigned to a DOM
input's `value` (a DOMString): `undefined` stringifies to
`"undefined"`. -/
def jsValueCoerce (o : Option String) : String :=
  o.getD "undefined"

/-- The DOM state written by the webview's `changeTaskNode`. -/
structure DetailsPanelState where
  titleValue : String
  bodyValue : String
  updateHidden : Bool
  cancelHidden : Bool
  remindHidden : Bool
  remindText : Option String
deriving Repr, DecidableEq

/-- `changeTaskNode` of `webviews/taskDetailsView/main.js` (lines 31-45).
Line 35, `body.value = taskNode.entity.body.content`, dereferences
`content` on `entity.body` without a guard, so a task node whose `body`
is absent makes the function throw a `TypeError`; the embedding returns
`Except.error` there. The reminder branch is guarded (`if
(taskNode.entity.reminderDateTime)`). `fmt` stands for
`s => new Date(s).toLocaleString()`, uninterpreted. -/
def changeTaskNode (fmt : Option String → String) (taskNode : TaskNode) :
    Except String DetailsPanelState :=
  match taskNode.entity.body with
  | none => Except.error "TypeError: Cannot read properties of undefined (reading content)"
  | some b =>
      Except.ok
        { titleValue := jsValueCoerce taskNode.entity.title
          bodyValue := jsValueCoerce b.content
          updateHidden := true
          cancelHidden := true
          remindHidden := taskNode.entity.reminderDateTime.isNone
          remindText :=
            match taskNode.entity.reminderDateTime with
            | some r => some ("Reminder set at " ++ fmt r.dateTime)
            | none => none }

/-- The batch passed to the coordinator by each command handler
(lines 48, 52, 56, 60): `nodes ? nodes : [node]`. -/
def commandBatch (node : TaskNode) (nodes : Option (List TaskNode)) : List TaskNode :=
  match nodes with
  | some ns => ns
  | none => [node]

/-- The four mutation command registrations of the constructor
(lines 46-60): `complete` and `uncomplete` both call
`changeCompletedState` on the batch, `star` and `unstar` both call
`changeImportanceState`; no handler inspects the task's current state
before dispatching. Unknown command ids yield `none`. -/
def commandHandler (client : GraphClient) (cmd : String) (node : TaskNode)
    (nodes : Option (List TaskNode)) : Option (List (List TreeEvent)) :=
  if cmd = "microsoft-todo-unoffcial.complete" then
    some (changeCompletedState client (commandBatch node nodes))
  else if cmd = "microsoft-todo-unoffcial.uncomplete" then
    some (changeCompletedState client (commandBatch node nodes))
  else if cmd = "microsoft-todo-unoffcial.star" then
    some (changeImportanceState client (commandBatch node nodes))
  else if cmd = "microsoft-todo-unoffcial.unstar" then
    some (changeImportanceState client (commandBatch node nodes))
  else none

/-- C1: expanding the root with a client available returns one node per
task list returned by the gateway, in service order, followed by exactly
one create-list sentinel as the last entry: N lists give N + 1 entries. -/
theorem root_expansion_lists_then_sentinel (client : GraphClient) :
    ∃ nodes : List ToDoEntity,
      (getChildren (some client) none).1 = some nodes
      ∧ nodes.length = (client.getAllLists listsPath).length + 1
      ∧ nodes.getLast? = some ToDoEntity.createList
      ∧ nodes.take (client.getAllLists listsPath).length
          = (client.getAllLists listsPath).map (fun e => ToDoEntity.list { entity := e }) := by
  refine ⟨(client.getAllLists listsPath).map (fun e => ToDoEntity.list { entity := e })
      ++ [ToDoEntity.createList], rfl, by simp, ?_, ?_⟩
  · exact List.getLast?_concat _
  · rw [show (client.getAllLists listsPath).length
        = ((client.getAllLists listsPath).map (fun e => ToDoEntity.list { entity := e })).length
        by simp, List.take_left]

/-- C2: expanding a list node returns exactly the two status-group nodes,
in-progress first and completed second, and issues no gateway request at
all during the call (the fetch stays deferred in the groups); the
right-hand side is a fixed value, so a second call on the same list
yields the same nodes with the same statusType ordering. -/
theorem list_expansion_two_status_groups (client : GraphClient) (ln : ListNode) :
    getChildren (some client) (some (ToDoEntity.list ln))
      = (some [ToDoEntity.status { statusType := TaskStatusType.inProgress, parent := ln, getCompleted := false },
               ToDoEntity.status { statusType := TaskStatusType.completed, parent := ln, getCompleted := true }],
         ([] : List GatewayRequest)) := rfl

/-- C3: the two status groups built by list expansion defer their fetch
to the filtered tasks query of the owning list: realizing the
in-progress group issues exactly one request whose filter operator is
`ne` against `'completed'`, realizing the completed group issues exactly
one request with operator `eq`, both paths built from the owning list's
id. -/
theorem status_group_filter_paths (client : GraphClient) (ln : ListNode) :
    ((getChildren (some client) (some (ToDoEntity.list ln))).1
      = some [ToDoEntity.status { statusType := TaskStatusType.inProgress, parent := ln, getCompleted := false },
              ToDoEntity.status { statusType := TaskStatusType.completed, parent := ln, getCompleted := true }])
    ∧ ((getChildren (some client)
          (some (ToDoEntity.status { statusType := TaskStatusType.inProgress, parent := ln, getCompleted := false }))).2
        = [GatewayRequest.getAll
            ("/me/todo/lists/" ++ ln.entity.id ++ "/tasks?$filter= status " ++ "ne" ++ " \x27completed\x27")])
    ∧ ((getChildren (some client)
          (some (ToDoEntity.status { statusType := TaskStatusType.completed, parent := ln, getCompleted := true }))).2
        = [GatewayRequest.getAll
            ("/me/todo/lists/" ++ ln.entity.id ++ "/tasks?$filter= status " ++ "eq" ++ " \x27completed\x27")]) :=
  ⟨rfl, rfl, rfl⟩

/-- C4: when the client capability is unavailable (`getClient` yields
nothing), `getChildren` returns the absent result for every element,
issuing no request and raising no error. -/
theorem no_client_returns_absent (element : Option ToDoEntity) :
    getChildren none element = (none, []) := rfl

/-- Concrete task list used in concrete evaluations. -/
def exList : TodoTaskList := { id := "L1", displayName := some "Groceries" }

/-- Concrete list node owning the example tasks. -/
def exListNode : ListNode := { entity := exList }

/-- A not-started, normal-importance task with every optional field
absent. -/
def exTask1 : TodoTask :=
  { id := "T1", title := some "Buy milk", status := some "notStarted",
    importance := some "normal", dueDateTime := none, body := none,
    reminderDateTime := none }

/-- A completed, high-importance task. -/
def exTask2 : TodoTask :=
  { id := "T2", title := some "Pay bills", status := some "completed",
    importance := some "high", dueDateTime := none, body := none,
    reminderDateTime := none }

/-- A task whose status and importance fields are absent. -/
def exTask3 : TodoTask :=
  { id := "T3", title := some "Call mom", status := none,
    importance := none, dueDateTime := none, body := none,
    reminderDateTime := none }

/-- A task carrying a due timestamp and a body. -/
def exTaskDue : TodoTask :=
  { id := "T4", title := some "Send report", status := some "notStarted",
    importance := some "normal",
    dueDateTime := some { dateTime := some "2021-03-04T08:00:00.0000000" },
    body := some { content := some "quarterly numbers" },
    reminderDateTime := none }

/-- Task node for `exTask1` under the example list. -/
def exNode1 : TaskNode := { entity := exTask1, parent := exListNode }

/-- Task node for `exTask2` under the example list. -/
def exNode2 : TaskNode := { entity := exTask2, parent := exListNode }

/-- Task node for `exTask3` under the example list. -/
def exNode3 : TaskNode := { entity := exTask3, parent := exListNode }

/-- A client whose every patch succeeds. -/
def exClientAllOk : GraphClient :=
  { getAllLists := fun _ => [exList],
    getAllTasks := fun _ => [exTask1, exTask2],
    patch := fun _ _ => true }

/-- A client whose patch fails exactly on the path addressing `exNode2`
and succeeds elsewhere. -/
def exClientFail2 : GraphClient :=
  { getAllLists := fun _ => [],
    getAllTasks := fun _ => [],
    patch := fun p _ => !(p == taskPatchPath exNode2) }

/-- C5: for the node at any position of a toggle batch, the per-node
trace starts with exactly one gateway request — a patch addressed by the
pair (parent list id, task id), whose new field value is the logical
negation of the current snapshot value (`completed ↔ notStarted` for
completion, `high ↔ normal` for importance) — and on success of that
individual patch the only further event is one invalidation firing
scoped to the task's parent list node, never the global root. -/
theorem toggle_patch_per_node (client : GraphClient) (nodes : List TaskNode)
    (i : Nat) (n : TaskNode) (h : nodes[i]? = some n) :
    ((changeCompletedState client nodes)[i]?
      = some (TreeEvent.req (GatewayRequest.patch (taskPatchPath n)
              (PatchBody.status (if n.entity.status = some "completed" then "notStarted" else "completed")))
          :: (if client.patch (taskPatchPath n)
                (PatchBody.status (if n.entity.status = some "completed" then "notStarted" else "completed"))
              then [TreeEvent.fire (some (ToDoEntity.list n.parent))] else [])))
    ∧ ((changeImportanceState client nodes)[i]?
      = some (TreeEvent.req (GatewayRequest.patch (taskPatchPath n)
              (PatchBody.importance (if n.entity.importance = some "high" then "normal" else "high")))
          :: (if client.patch (taskPatchPath n)
                (PatchBody.importance (if n.entity.importance = some "high" then "normal" else "high"))
              then [TreeEvent.fire (some (ToDoEntity.list n.parent))] else []))) := by
  constructor
  · rw [changeCompletedState, List.getElem?_map, h, Option.map_some']
    unfold completedPatchOne toggledStatus
    cases hc : client.patch (taskPatchPath n)
        (PatchBody.status (if n.entity.status = some "completed" then "notStarted" else "completed")) <;>
      simp [hc]
  · rw [changeImportanceState, List.getElem?_map, h, Option.map_some']
    unfold importancePatchOne toggledImportance
    cases hc : client.patch (taskPatchPath n)
        (PatchBody.importance (if n.entity.importance = some "high" then "normal" else "high")) <;>
      simp [hc]

/-- Witness for C5 at position 0 of the singleton batch `[exNode1]`
against the all-succeeding client. -/
theorem toggle_patch_per_node_witness :
    (([exNode1] : List TaskNode)[0]? = some exNode1)
    ∧ (((changeCompletedState exClientAllOk [exNode1])[0]?
        = some (TreeEvent.req (GatewayRequest.patch (taskPatchPath exNode1)
                (PatchBody.status (if exNode1.entity.status = some "completed" then "notStarted" else "completed")))
            :: (if exClientAllOk.patch (taskPatchPath exNode1)
                  (PatchBody.status (if exNode1.entity.status = some "completed" then "notStarted" else "completed"))
                then [TreeEvent.fire (some (ToDoEntity.list exNode1.parent))] else [])))
      ∧ ((changeImportanceState exClientAllOk [exNode1])[0]?
        = some (TreeEvent.req (GatewayRequest.patch (taskPatchPath exNode1)
                (PatchBody.importance (if exNode1.entity.importance = some "high" then "normal" else "high")))
            :: (if exClientAllOk.patch (taskPatchPath exNode1)
                  (PatchBody.importance (if exNode1.entity.importance = some "high" then "normal" else "high"))
                then [TreeEvent.fire (some (ToDoEntity.list exNode1.parent))] else [])))) :=
  ⟨by decide, toggle_patch_per_node exClientAllOk [exNode1] 0 exNode1 (by decide)⟩

/-- C6: per-task updates of a batch are independent: in a batch of three
where the gateway fails exactly the second patch, the first and third
traces still carry their request and their own invalidation firing,
while the second carries its request but no firing. -/
theorem batch_failure_independence (client : GraphClient) (n1 n2 n3 : TaskNode)
    (h1 : client.patch (taskPatchPath n1) (PatchBody.status (toggledStatus n1.entity.status)) = true)
    (h2 : client.patch (taskPatchPath n2) (PatchBody.status (toggledStatus n2.entity.status)) = false)
    (h3 : client.patch (taskPatchPath n3) (PatchBody.status (toggledStatus n3.entity.status)) = true) :
    changeCompletedState client [n1, n2, n3]
      = [[TreeEvent.req (GatewayRequest.patch (taskPatchPath n1) (PatchBody.status (toggledStatus n1.entity.status))),
          TreeEvent.fire (some (ToDoEntity.list n1.parent))],
         [TreeEvent.req (GatewayRequest.patch (taskPatchPath n2) (PatchBody.status (toggledStatus n2.entity.status)))],
         [TreeEvent.req (GatewayRequest.patch (taskPatchPath n3) (PatchBody.status (toggledStatus n3.entity.status))),
          TreeEvent.fire (some (ToDoEntity.list n3.parent))]] := by
  simp [changeCompletedState, completedPatchOne, h1, h2, h3]

/-- Witness for C6: `exClientFail2` fails exactly the patch addressing
`exNode2`; the batch `[exNode1, exNode2, exNode3]` still completes and
fires for the first and third nodes. -/
theorem batch_failure_independence_witness :
    (exClientFail2.patch (taskPatchPath exNode1) (PatchBody.status (toggledStatus exNode1.entity.status)) = true)
    ∧ (exClientFail2.patch (taskPatchPath exNode2) (PatchBody.status (toggledStatus exNode2.entity.status)) = false)
    ∧ (exClientFail2.patch (taskPatchPath exNode3) (PatchBody.status (toggledStatus exNode3.entity.status)) = true)
    ∧ (changeCompletedState exClientFail2 [exNode1, exNode2, exNode3]
      = [[TreeEvent.req (GatewayRequest.patch (taskPatchPath exNode1) (PatchBody.status (toggledStatus exNode1.entity.status))),
          TreeEvent.fire (some (ToDoEntity.list exNode1.parent))],
         [TreeEvent.req (GatewayRequest.patch (taskPatchPath exNode2) (PatchBody.status (toggledStatus exNode2.entity.status)))],
         [TreeEvent.req (GatewayRequest.patch (taskPatchPath exNode3) (PatchBody.status (toggledStatus exNode3.entity.status))),
          TreeEvent.fire (some (ToDoEntity.list exNode3.parent))]]) :=
  ⟨by decide, by decide, by decide,
   batch_failure_independence exClientFail2 exNode1 exNode2 exNode3 (by decide) (by decide) (by decide)⟩

/-- C7 fails as stated: the patched status is
`status === 'completed' ? 'notStarted' : 'completed'`, so for a task
whose current status is `inProgress` (a value the in-progress group's
`status ne 'completed'` filter admits) the first toggle patches
`completed`, the fresh snapshot carries `completed`, and the second
toggle patches `notStarted`, not the original `inProgress`. -/
theorem double_toggle_counterexample :
    toggledStatus (some (toggledStatus (some "inProgress"))) = "notStarted"
    ∧ ("notStarted" : String) ≠ "inProgress" := by
  constructor
  · rfl
  · decide

/-- C7 amended: when the task's current status is one of the two binary
values `completed` or `notStarted`, toggling twice — the second toggle
reading the fresh snapshot that carries the first patched value —
returns the original status. -/
theorem double_toggle_identity_on_binary (s : Option String)
    (h : s = some "completed" ∨ s = some "notStarted") :
    some (toggledStatus (some (toggledStatus s))) = s := by
  rcases h with h | h <;> subst h <;> rfl

/-- Witness for the amended C7 at status `completed`. -/
theorem double_toggle_identity_witness :
    ((some "completed" : Option String) = some "completed" ∨ (some "completed" : Option String) = some "notStarted")
    ∧ some (toggledStatus (some (toggledStatus (some "completed")))) = (some "completed" : Option String) :=
  ⟨Or.inl rfl, double_toggle_identity_on_binary (some "completed") (Or.inl rfl)⟩

/-- C8: a task with no truthy due timestamp gets a display label exactly
equal to its title and no highlighted span; a task with a truthy due
timestamp gets a label strictly longer than the bare title, with the
appended due suffix covered by a single highlighted span starting right
after the title and its two-space separator. -/
theorem task_label_due_suffix (fmt : String → String) (t : TodoTask) :
    ((t.dueDateTime.bind DateTimeTimeZone.dateTime).getD "" = "" →
      (taskTreeLabel fmt t).label = t.title.getD ""
      ∧ (taskTreeLabel fmt t).highlights = [])
    ∧ (∀ dt : String, t.dueDateTime.bind DateTimeTimeZone.dateTime = some dt → dt ≠ "" →
      (t.title.getD "").length < (taskTreeLabel fmt t).label.length
      ∧ (taskTreeLabel fmt t).highlights
          = [((t.title.getD "").length + 2,
              (t.title.getD "").length + 2 + (" DUE " ++ fmt dt ++ " ").length)]) := by
  constructor
  · intro h
    cases hbind : t.dueDateTime.bind DateTimeTimeZone.dateTime with
    | none => simp [taskTreeLabel, hbind]
    | some dt =>
        rw [hbind] at h
        simp only [Option.getD_some] at h
        simp [taskTreeLabel, hbind, h]
  · intro dt hbind hne
    simp only [taskTreeLabel, hbind, hne, if_neg hne]
    have h1 : (" " : String).length = 1 := rfl
    have h2 : ("  " : String).length = 2 := rfl
    have h5 : (" DUE " : String).length = 5 := rfl
    constructor
    · simp [String.length_append, h1, h2, h5]
      omega
    · simp [String.length_append, h1, h2, h5]

/-- Witness for C8: `exTask1` has no due timestamp and its label is the
bare title; `exTaskDue` has one and its label is strictly longer, with
the suffix span highlighted. -/
theorem task_label_due_suffix_witness :
    (((exTask1.dueDateTime.bind DateTimeTimeZone.dateTime).getD "" = "")
      ∧ ((taskTreeLabel (fun s => s) exTask1).label = exTask1.title.getD ""
        ∧ (taskTreeLabel (fun s => s) exTask1).highlights = []))
    ∧ ((exTaskDue.dueDateTime.bind DateTimeTimeZone.dateTime = some "2021-03-04T08:00:00.0000000")
      ∧ (("2021-03-04T08:00:00.0000000" : String) ≠ "")
      ∧ ((exTaskDue.title.getD "").length < (taskTreeLabel (fun s => s) exTaskDue).label.length
        ∧ (taskTreeLabel (fun s => s) exTaskDue).highlights
            = [((exTaskDue.title.getD "").length + 2,
                (exTaskDue.title.getD "").length + 2
                  + (" DUE " ++ (fun s => s) "2021-03-04T08:00:00.0000000" ++ " ").length)])) :=
  ⟨⟨by decide, (task_label_due_suffix (fun s => s) exTask1).1 (by decide)⟩,
   ⟨by decide, by decide,
    (task_label_due_suffix (fun s => s) exTaskDue).2 "2021-03-04T08:00:00.0000000" (by decide) (by decide)⟩⟩

/-- C9 fails on the details panel: line 35 of the webview script reads
`taskNode.entity.body.content` without a guard, so `changeTaskNode`
throws a `TypeError` on a task whose optional `body` is absent, while
the tree-item display of the very same task degrades gracefully (bare
title label, no suffix, bare tooltip). Evaluation of both consumers at
the failing input `exTask1` (no due date, no body, no reminder). -/
theorem details_panel_faults_on_missing_body :
    changeTaskNode (fun o => o.getD "undefined") exNode1
      = Except.error "TypeError: Cannot read properties of undefined (reading content)"
    ∧ (taskTreeLabel (fun s => s) exTask1).label = "Buy milk"
    ∧ (taskTreeLabel (fun s => s) exTask1).highlights = []
    ∧ taskTooltip exTask1 = "*Buy milk*" :=
  ⟨rfl, by decide, by decide, by decide⟩

/-- C10: the `uncomplete` command handler is the same function as the
`complete` one, and `unstar` the same as `star` — all four dispatch to
the unconditional toggles. Consequently `uncomplete` on a task that is
not completed patches its status to `completed`, and `unstar` on a task
whose importance is not high patches its importance to `high`, rather
than being a no-op or an explicit set to the named state. -/
theorem command_aliases_toggle (client : GraphClient) (node : TaskNode)
    (nodes : Option (List TaskNode)) :
    (commandHandler client "microsoft-todo-unoffcial.uncomplete" node nodes
      = commandHandler client "microsoft-todo-unoffcial.complete" node nodes)
    ∧ (commandHandler client "microsoft-todo-unoffcial.unstar" node nodes
      = commandHandler client "microsoft-todo-unoffcial.star" node nodes)
    ∧ (node.entity.status ≠ some "completed" →
        commandHandler client "microsoft-todo-unoffcial.uncomplete" node none
          = some [TreeEvent.req (GatewayRequest.patch (taskPatchPath node) (PatchBody.status "completed"))
              :: (if client.patch (taskPatchPath node) (PatchBody.status "completed")
                  then [TreeEvent.fire (some (ToDoEntity.list node.parent))] else [])])
    ∧ (node.entity.importance ≠ some "high" →
        commandHandler client "microsoft-todo-unoffcial.unstar" node none
          = some [TreeEvent.req (GatewayRequest.patch (taskPatchPath node) (PatchBody.importance "high"))
              :: (if client.patch (taskPatchPath node) (PatchBody.importance "high")
                  then [TreeEvent.fire (some (ToDoEntity.list node.parent))] else [])]) := by
  refine ⟨rfl, rfl, ?_, ?_⟩
  · intro h
    have hts : toggledStatus node.entity.status = "completed" := by
      unfold toggledStatus
      exact if_neg h
    show some (changeCompletedState client (commandBatch node none)) = _
    rw [commandBatch, changeCompletedState, List.map_cons, List.map_nil]
    unfold completedPatchOne
    rw [hts]
    cases hc : client.patch (taskPatchPath node) (PatchBody.status "completed") <;> simp [hc]
  · intro h
    have hti : toggledImportance node.entity.importance = "high" := by
      unfold toggledImportance
      exact if_neg h
    show some (changeImportanceState client (commandBatch node none)) = _
    rw [commandBatch, changeImportanceState, List.map_cons, List.map_nil]
    unfold importancePatchOne
    rw [hti]
    cases hc : client.patch (taskPatchPath node) (PatchBody.importance "high") <;> simp [hc]

/-- Witness for C10 at `exNode1`, whose status is `notStarted` and
importance `normal`, against the all-succeeding client. -/
theorem command_aliases_toggle_witness :
    (exNode1.entity.status ≠ some "completed")
    ∧ (exNode1.entity.importance ≠ some "high")
    ∧ (commandHandler exClientAllOk "microsoft-todo-unoffcial.uncomplete" exNode1 none
        = some [TreeEvent.req (GatewayRequest.patch (taskPatchPath exNode1) (PatchBody.status "completed"))
            :: (if exClientAllOk.patch (taskPatchPath exNode1) (PatchBody.status "completed")
                then [TreeEvent.fire (some (ToDoEntity.list exNode1.parent))] else [])])
    ∧ (commandHandler exClientAllOk "microsoft-todo-unoffcial.unstar" exNode1 none
        = some [TreeEvent.req (GatewayRequest.patch (taskPatchPath exNode1) (PatchBody.importance "high"))
            :: (if exClientAllOk.patch (taskPatchPath exNode1) (PatchBody.importance "high")
                then [TreeEvent.fire (some (ToDoEntity.list exNode1.parent))] else [])]) :=
  ⟨by decide, by decide,
   (command_aliases_toggle exClientAllOk exNode1 none).2.2.1 (by decide),
   (command_aliases_toggle exClientAllOk exNode1 none).2.2.2 (by decide)⟩

end MSToDo
